import Mathlib

/-!
Verification of the hydna node client core (`src/index.js`) against its
specification.  The JavaScript source is shallowly embedded: byte buffers
become `List Nat` (each entry a byte value; JavaScript `Buffer` element
assignment truncates with `% 256`), JavaScript 32-bit shifts/ors on the
small values appearing here become `Nat` shifts/ors, exceptions become
explicit error results, and the single-threaded callback effects (frames
written to the socket, events emitted on a channel) are returned as lists.
-/

/-- Constant `MAX_PAYLOAD_SIZE` from index.js. -/
def MAX_PAYLOAD_SIZE : Nat := 10240

/-- Constant `READ` from index.js. -/
def READ : Nat := 0x01

/-- Constant `WRITE` from index.js. -/
def WRITE : Nat := 0x02

/-- Constant `EMIT` from index.js. -/
def EMIT : Nat := 0x04

/-- Constant `ALL_CHANNELS` from index.js. -/
def ALL_CHANNELS : Nat := 0

/-- JavaScript runtime errors thrown by the embedded code: `error` models
`throw new Error(msg)`; `typeError` models a property access on `undefined`;
`referenceError` models reading an identifier that is not declared in any
enclosing scope (non-strict mode raises `ReferenceError: <name> is not
defined`). -/
inductive JsError where
  | error (msg : String)
  | typeError (msg : String)
  | referenceError (name : String)
deriving DecidableEq, Repr

/-- Structure `DataFrame(id, flag, data)` from index.js.  `data` is `none`
when the constructor received `null`/`undefined`. -/
structure DataFrame where
  id : Nat
  flag : Nat
  data : Option (List Nat)
deriving DecidableEq, Repr

/-- Structure `SignalFrame(id, flag, data)` from index.js. -/
structure SignalFrame where
  id : Nat
  flag : Nat
  data : Option (List Nat)
deriving DecidableEq, Repr

/-- Constant `SignalFrame.FLAG_EMIT`. -/
def SignalFrame.FLAG_EMIT : Nat := 0x0

/-- Constant `SignalFrame.FLAG_END`. -/
def SignalFrame.FLAG_END : Nat := 0x1

/-- Constant `SignalFrame.FLAG_ERROR`. -/
def SignalFrame.FLAG_ERROR : Nat := 0x7

/-- Structure `OpenRequest` from index.js, restricted to its per-request
fields.  The connection pointer is elided; the `prev`/`next` linked-list
structure is represented externally as a `List OpenRequest` (head =
`requests[id]`, successors in `next` order).  Note the source never assigns
`prev` a non-null value: the constructor leaves it `null`, `processResponse`
assigns `null`, and the assignment in `cancel` is guarded by `this.prev`
being non-null and is therefore unreachable. -/
structure OpenRequest where
  id : Nat
  flag : Nat
  data : Option (List Nat)
  present : Bool
  sent : Bool
  destroyed : Bool
deriving DecidableEq, Repr

/-- Constant `OpenRequest.FLAG_ALLOW`. -/
def OpenRequest.FLAG_ALLOW : Nat := 0x0

/-- Constant `OpenRequest.FLAG_REDIRECT`. -/
def OpenRequest.FLAG_REDIRECT : Nat := 0x1

/-- Constant `OpenRequest.FLAG_DENY`. -/
def OpenRequest.FLAG_DENY : Nat := 0x7

/-- Translation of `DataFrame.prototype.toBuffer` (index.js:1260-1283).
`length = 7 + (data ? data.length : 0)`; two length bytes, four id bytes,
descriptor `0x2 << 3 | flag`, then the payload copy.  Buffer element
assignment truncates each stored value modulo 256. -/
def DataFrame.toBuffer (f : DataFrame) : List Nat :=
  let length := 7 + (f.data.map List.length).getD 0
  [(length >>> 8) % 256, length % 256,
   (f.id >>> 24) % 256, (f.id >>> 16) % 256, (f.id >>> 8) % 256, f.id % 256,
   ((0x2 <<< 3) ||| f.flag) % 256] ++ f.data.getD []

/-- Translation of `SignalFrame.prototype.toBuffer` (index.js:1298-1321);
identical to the DataFrame layout except for descriptor op `0x3`. -/
def SignalFrame.toBuffer (f : SignalFrame) : List Nat :=
  let length := 7 + (f.data.map List.length).getD 0
  [(length >>> 8) % 256, length % 256,
   (f.id >>> 24) % 256, (f.id >>> 16) % 256, (f.id >>> 8) % 256, f.id % 256,
   ((0x3 <<< 3) ||| f.flag) % 256] ++ f.data.getD []

/-- Translation of `OpenRequest.prototype.toBuffer` (index.js:1228-1251);
identical layout with descriptor op `0x1`. -/
def OpenRequest.toBuffer (f : OpenRequest) : List Nat :=
  let length := 7 + (f.data.map List.length).getD 0
  [(length >>> 8) % 256, length % 256,
   (f.id >>> 24) % 256, (f.id >>> 16) % 256, (f.id >>> 8) % 256, f.id % 256,
   ((0x1 <<< 3) ||| f.flag) % 256] ++ f.data.getD []

/-- One dispatch performed by the incremental parser: the decoded channel
id, flag and the payload slice handed to `processOpen` (`op = 1`),
`processData` (`op = 2`) or `processSignal` (`op = 3`). -/
structure DispatchEvent where
  op : Nat
  ch : Nat
  flag : Nat
  payload : List Nat
deriving DecidableEq, Repr

/-- Outcome of running the parser loop on the buffered bytes: either the
connection was destroyed with an error message (the loop `return`s), or the
loop finished, retaining `residual` bytes for the next chunk (`[]` models
the source resetting `buffer = null` when everything was consumed). -/
inductive ParseOutcome where
  | destroyed (events : List DispatchEvent) (msg : String)
  | ok (events : List DispatchEvent) (residual : List Nat)
deriving DecidableEq, Repr

/-- Prepend earlier dispatches onto a parse outcome. -/
def ParseOutcome.prepend (evs : List DispatchEvent) : ParseOutcome → ParseOutcome
  | .destroyed es m => .destroyed (evs ++ es) m
  | .ok es r => .ok (evs ++ es) r

/-- Dispatches produced by one complete packet of length `packetlen` found
at `offset` (index.js:1370-1394): channel id from bytes 2-5 (the source
computes `(b3 << 16 | b4 << 8 | b5) + (b2 << 24 >>> 0)`), descriptor byte 6
split by the legacy bit-twiddles, payload `buffer[offset+7 ..
offset+packetlen]`.  Op `0x0` (NOOP) performs no dispatch. -/
def dispatchAt (buffer : List Nat) (offset packetlen : Nat) : List DispatchEvent :=
  let ch := ((buffer.getD (offset + 3) 0) <<< 16 |||
             (buffer.getD (offset + 4) 0) <<< 8 |||
             buffer.getD (offset + 5) 0) + ((buffer.getD (offset + 2) 0) <<< 24)
  let desc := buffer.getD (offset + 6) 0
  let op := ((desc >>> 1) &&& 0xf) >>> 2
  let flag := ((desc <<< 1) &&& 0xf) >>> 1
  if op = 0 then []
  else [⟨op, ch, flag, (buffer.drop (offset + 7)).take (packetlen - 7)⟩]

/-- Fuel-indexed translation of the `while` loop of `parserImplementation`
(index.js:1350-1397).  Guards mirror the source: stop when fewer than two
bytes remain from `offset`; destroy the connection when the length prefix is
below 7; stop and retain the tail when the packet is incomplete; otherwise
dispatch and advance by `packetlen`.  The fuel only bounds the iteration
count; `parseLoop` below supplies enough fuel for the loop to run to
completion. -/
def parseLoopF : Nat → List Nat → Nat → ParseOutcome
  | 0, buffer, offset => .ok [] (buffer.drop offset)
  | fuel + 1, buffer, offset =>
    if offset + 2 > buffer.length then .ok [] (buffer.drop offset)
    else
      let packetlen := (buffer.getD offset 0) <<< 8 ||| buffer.getD (offset + 1) 0
      if packetlen < 0x7 then .destroyed [] "bad packet size"
      else if offset + packetlen > buffer.length then .ok [] (buffer.drop offset)
      else .prepend (dispatchAt buffer offset packetlen)
             (parseLoopF fuel buffer (offset + packetlen))

/-- The parser loop started at `offset` in the concatenated buffer.  Each
iteration advances `offset` by at least 7, so `buffer.length + 1` units of
fuel always suffice. -/
def parseLoop (buffer : List Nat) (offset : Nat) : ParseOutcome :=
  parseLoopF (buffer.length + 1) buffer offset

/-- Translation of the `sock.ondata` entry of `parserImplementation`
(index.js:1329-1348): the retained residual bytes are concatenated with the
new chunk and the loop restarts at offset 0. -/
def sockOndata (residual chunk : List Nat) : ParseOutcome :=
  parseLoop (residual ++ chunk) 0

/-- Strip the literal `p` from the front of `s`, returning the remainder
(used to model matching one alternative of a regex group). -/
def stripLit : List Char → List Char → Option (List Char)
  | [], s => some s
  | _, [] => none
  | p :: ps, c :: cs => if c = p then stripLit ps cs else none

/-- Backtracking matcher for the anchored final group `(e|emit){0,1}$` of
`MODE_RE` (index.js:48), trying the alternatives in the engine's order
(`e`, then `emit`, then the empty match).  Returns whether the group
captured. -/
def matchEmitEnd (s : List Char) : Option Bool :=
  if s = ['e'] then some true
  else if s = ['e', 'm', 'i', 't'] then some true
  else if s = [] then some false
  else none

/-- Matcher for `(?:\+){0,1}` followed by the emit group, with
backtracking to the zero-width alternative. -/
def matchPlusEmit (s : List Char) : Option Bool :=
  match s with
  | '+' :: rest => (matchEmitEnd rest).orElse (fun _ => matchEmitEnd ('+' :: rest))
  | _ => matchEmitEnd s

/-- Matcher for `(w|write){0,1}` followed by the rest of `MODE_RE`
(alternation order `w`, `write`, empty). -/
def matchWriteTail (s : List Char) : Option (Bool × Bool) :=
  ((stripLit ['w'] s).bind (fun r => (matchPlusEmit r).map (fun e => (true, e)))).orElse
    (fun _ =>
      ((stripLit ['w', 'r', 'i', 't', 'e'] s).bind
          (fun r => (matchPlusEmit r).map (fun e => (true, e)))).orElse
        (fun _ => (matchPlusEmit s).map (fun e => (false, e))))

/-- Backtracking matcher for the full anchored regex `MODE_RE`
`^(r|read){0,1}(w|write){0,1}(?:\+){0,1}(e|emit){0,1}$` on a lower-cased
character list (lower-casing models the `i` flag).  Returns, when the
string matches, whether each capturing group matched. -/
def matchModeRe (s : List Char) : Option (Bool × Bool × Bool) :=
  ((stripLit ['r'] s).bind (fun r => (matchWriteTail r).map (fun we => (true, we)))).orElse
    (fun _ =>
      ((stripLit ['r', 'e', 'a', 'd'] s).bind
          (fun r => (matchWriteTail r).map (fun we => (true, we)))).orElse
        (fun _ => (matchWriteTail s).map (fun we => (false, we))))

/-- Translation of `getBinMode` (index.js:1408-1425).  A falsy mode
expression (absent, or the empty string) yields `0`; a non-matching string
yields `none` (the source's `null`, which is not a number); otherwise the
bits READ/WRITE/EMIT are or-ed in for the groups that matched. -/
def getBinMode (modeExpr : Option String) : Option Nat :=
  match modeExpr with
  | none => some 0
  | some s =>
    if s = "" then some 0
    else
      match matchModeRe (s.data.map Char.toLower) with
      | none => none
      | some (r, w, e) =>
        some (((if r then READ else 0) ||| (if w then WRITE else 0)) |||
          (if e then EMIT else 0))

/-- Modelled from the spec: the textual mode grammar
`(r|read)?(w|write)?\+?(e|emit)?` (case-insensitive, applied here to the
lower-cased characters), as a decomposition predicate recording which
groups are present. -/
def modeGrammar (s : List Char) (r w e : Bool) : Prop :=
  ∃ a ∈ [[], ['r'], ['r', 'e', 'a', 'd']],
  ∃ b ∈ [[], ['w'], ['w', 'r', 'i', 't', 'e']],
  ∃ c ∈ [([] : List Char), ['+']],
  ∃ d ∈ [[], ['e'], ['e', 'm', 'i', 't']],
    s = a ++ b ++ c ++ d ∧ r = !a.isEmpty ∧ w = !b.isEmpty ∧ e = !d.isEmpty

/-- Parsed URL object as returned by node's `url.parse`, restricted to the
fields `Channel.prototype.connect` reads.  `query` is the raw query string
(`none` when absent); JavaScript truthiness makes an empty query falsy. -/
structure ParsedUrl where
  protocol : String
  host : String
  pathname : Option String
  query : Option String
  href : String
deriving DecidableEq, Repr

/-- Value of a character as a decimal digit. -/
def decDigit? (c : Char) : Option Nat :=
  if '0' ≤ c ∧ c ≤ '9' then some (c.toNat - '0'.toNat) else none

/-- Value of a character as a hexadecimal digit. -/
def hexDigit? (c : Char) : Option Nat :=
  if '0' ≤ c ∧ c ≤ '9' then some (c.toNat - '0'.toNat)
  else if 'a' ≤ c ∧ c ≤ 'f' then some (c.toNat - 'a'.toNat + 10)
  else if 'A' ≤ c ∧ c ≤ 'F' then some (c.toNat - 'A'.toNat + 10)
  else none

/-- Accumulate the value of the longest digit prefix. -/
def parseDigits (dig : Char → Option Nat) (base : Nat) : List Char → Nat → Nat
  | [], acc => acc
  | c :: cs, acc =>
    match dig c with
    | some v => parseDigits dig base cs (acc * base + v)
    | none => acc

/-- Model of JavaScript `parseInt` as used by `connect`: a `0x`/`0X` prefix
selects radix 16, otherwise radix 10; the longest digit prefix is parsed;
`none` models `NaN` (no digits). -/
def parseIntJS (s : String) : Option Nat :=
  match s.data with
  | '0' :: 'x' :: rest =>
    if (rest.head?.bind hexDigit?).isSome then some (parseDigits hexDigit? 16 rest 0)
    else none
  | '0' :: 'X' :: rest =>
    if (rest.head?.bind hexDigit?).isSome then some (parseDigits hexDigit? 16 rest 0)
    else none
  | l =>
    if (l.head?.bind decDigit?).isSome then some (parseDigits decDigit? 10 l 0)
    else none

/-- Result of a successful `Channel.prototype.connect`: the fields the
method assigns.  `token` is the open token passed to `Connection.open`;
note that no non-throwing path assigns it, because the token branch reads
the never-assigned local `uri`. -/
structure ConnectResult where
  id : Nat
  mode : Nat
  readable : Bool
  writable : Bool
  emitable : Bool
  token : Option (List Nat)
deriving DecidableEq, Repr

/-- Translation of `Channel.prototype.connect` (index.js:212-280) from the
point where the URL string has been parsed (the URL parser is an external
collaborator whose result is `url`).  Guard order follows the source:
already-connecting check, protocol check, channel id from the pathname
(`/xNN` hex via the prepended `"0"`, otherwise decimal, default 1), id
range check, mode parse, then the token branch.  At index.js:266 the source
evaluates `uri.query` where `uri` is a declared but never-assigned local,
so whenever `url.query` is truthy the method throws a TypeError before
constructing the token. -/
def Channel.connect (connecting : Bool) (url : ParsedUrl) (mode : Option String) :
    Except JsError ConnectResult :=
  if connecting then .error (.error "Already connecting")
  else if url.protocol ≠ "https:" ∧ url.protocol ≠ "http:" then
    .error (.error "bad protocol, expected `http` or `https`")
  else
    let id? : Except JsError Nat :=
      match url.pathname with
      | some p =>
        if p ≠ "" ∧ p.length ≠ 1 then
          match (if p.take 2 = "/x" then parseIntJS ("0" ++ p.drop 1)
                 else parseIntJS (p.drop 1)) with
          | none => .error (.error "Invalid channel")
          | some v => .ok v
        else .ok 1
      | none => .ok 1
    match id? with
    | .error e => .error e
    | .ok id =>
      if id > 0xFFFFFFFF then
        .error (.error "Invalid channel expected no between x0 and xFFFFFFFF")
      else
        match getBinMode mode with
        | none => .error (.error "Invalid mode")
        | some m =>
          let finish : Option (List Nat) → Except JsError ConnectResult := fun token =>
            .ok { id := id
                  mode := m
                  readable := (m &&& READ) = READ
                  writable := (m &&& WRITE) = WRITE
                  emitable := (m &&& EMIT) = EMIT
                  token := token }
          match url.query with
          | some q =>
            if q ≠ "" then .error (.typeError "Cannot read property query of undefined")
            else finish none
          | none => finish none

/-- Frames passed to `Channel.prototype._writeOut`. -/
inductive Frame where
  | dataF : DataFrame → Frame
  | signalF : SignalFrame → Frame
deriving DecidableEq, Repr

/-- Mutation `packet.id = newid` performed while draining the write queue
and when rewriting a deferred END signal. -/
def Frame.setId (n : Nat) : Frame → Frame
  | .dataF f => .dataF { f with id := n }
  | .signalF f => .signalF { f with id := n }

/-- Events emitted on a channel. -/
inductive ChanEvent where
  | connect
  | drain
  | errored (msg : Option String)
  | close (hadError : Bool) (message : Option String)
deriving DecidableEq, Repr

/-- Channel-local state (the fields of a `Channel` object).  `request` is
`some sent` when `_request` is non-null and its `sent` flag has that value;
`hasConnection` models `_connection` being non-null.  The connection-side
socket write is modeled as succeeding and flushing (socket exceptions and
backpressure come from the external transport). -/
structure ChannelState where
  id : Option Nat
  readable : Bool
  writable : Bool
  emitable : Bool
  connecting : Bool
  closing : Bool
  destroyed : Bool
  endsig : Option SignalFrame
  request : Option Bool
  writeQueue : Option (List Frame)
  hasConnection : Bool
deriving DecidableEq, Repr

/-- Result of `Channel.prototype._writeOut` (index.js:548-565): the packet
is appended to the existing write queue, or a fresh queue is created while
connecting, or it is written through `Connection.prototype.write`, or there
is no connection (the source then calls
`this.destroy(new Error("Channel is not writable"))` and returns `false`;
callers of this model perform that destroy). -/
inductive WriteOutResult where
  | queued (c : ChannelState)
  | written (frames : List Frame) (flushed : Bool)
  | noConnection
deriving DecidableEq, Repr

/-- Translation of `Channel.prototype._writeOut` (index.js:548-565). -/
def Channel.writeOut (c : ChannelState) (p : Frame) : WriteOutResult :=
  match c.writeQueue with
  | some q => .queued { c with writeQueue := some (q ++ [p]) }
  | none =>
    if c.connecting then .queued { c with writeQueue := some [p] }
    else if c.hasConnection then .written [p] true
    else .noConnection

/-- Translation of `finalizeDestroyChannel` (index.js:477-508), restricted
to the channel-local effects (the connection's channel map and refcount
bookkeeping are connection-side).  Note the source writes
`chan._writequeue = null`, a property distinct from `_writeQueue`, so the
real write queue is not cleared here.  Emits `error` (when an error is
given) and then `close`. -/
def finalizeDestroyChannel (c : ChannelState) (err : Option String)
    (message : Option String) : ChannelState × List ChanEvent :=
  if c.destroyed then (c, [])
  else
    ({ c with
        id := none
        readable := false
        writable := false
        emitable := false
        destroyed := true
        request := none
        hasConnection := false },
     (match err with
      | some e => [ChanEvent.errored (some e)]
      | none => []) ++ [ChanEvent.close err.isSome message])

/-- Translation of `Channel.prototype.destroy` (index.js:433-474).  The
entry guard `!this.id` is JavaScript falsiness: it fires when `id` is
`null` and also when `id` is `0`, so destroying a channel whose id is 0 is
a no-op (`c0.id.getD 0 == 0` covers both).  When the channel has no
connection, index.js:441 calls `finalizeDestroyChannel(this)` with no
error argument.  The `this._request.cancel()` call returns `true` exactly
when the request has not been sent (its queue effects are modeled by
`OpenRequest.cancelAt`).  When an end signal must be deferred it is stored
in `endsig`; when the channel is open the signal is written out, ignoring
write errors. -/
def Channel.destroy (c0 : ChannelState) (err : Option String) :
    ChannelState × List Frame × List ChanEvent :=
  if c0.destroyed || c0.closing || c0.id.getD 0 == 0 then (c0, [], [])
  else
    let fin0 := if c0.hasConnection then (c0, []) else finalizeDestroyChannel c0 none none
    let c1 := fin0.1
    let evs0 := fin0.2
    let c2 := { c1 with
                readable := false
                writable := false
                emitable := false
                closing := true }
    if c2.request = some false ∧ c2.endsig = none then
      let fin1 := finalizeDestroyChannel { c2 with request := none } err none
      (fin1.1, [], evs0 ++ fin1.2)
    else
      let sig := c2.endsig.getD
        { id := c2.id.getD 0, flag := SignalFrame.FLAG_END, data := none }
      if c2.request.isSome then
        ({ c2 with endsig := some sig }, [], evs0)
      else
        match Channel.writeOut c2 (.signalF sig) with
        | .queued c3 => (c3, [], evs0)
        | .written frames _ => (c2, frames, evs0)
        | .noConnection => (c2, [], evs0)

/-- Translation of `Channel.prototype.end` (index.js:418-430): no size
validation is performed on `message`; an END `SignalFrame` carrying the
message bytes is stored in `_endsig` and `destroy` is invoked.  `message`
is the UTF-8 byte buffer of the argument (`none` when absent or falsy). -/
def Channel.endChan (c : ChannelState) (message : Option (List Nat)) :
    ChannelState × List Frame × List ChanEvent :=
  if c.destroyed || c.closing then (c, [], [])
  else
    Channel.destroy
      { c with
        endsig := some { id := c.id.getD 0, flag := SignalFrame.FLAG_END, data := message } }
      none

/-- Translation of `Channel.prototype.write` (index.js:307-355) for an
already-encoded byte payload (`Buffer` input; string-to-byte conversion is
an external mechanical step, and a `Buffer` is always truthy so the
`!data` guard cannot fire).  `priority` models `arguments[2]`
(absent or `0` are falsy and default to `1` as in the source).  Returns
the JavaScript return value (or the thrown error) together with the state
after the call, the frames written to the connection, and any events
emitted. -/
def Channel.write (c : ChannelState) (data : List Nat) (priority : Option Nat) :
    Except JsError Bool × ChannelState × List Frame × List ChanEvent :=
  let flag0 := (match priority with
    | some p => if p = 0 then 1 else p
    | none => 1) - 1
  if !c.writable then (.error (.error "Channel is not writable"), c, [], [])
  else if flag0 > 3 then
    (.error (.error "Bad priority, expected Number between 1-4"), c, [], [])
  else
    let flag := flag0 <<< 1 ||| 0
    if data.length > MAX_PAYLOAD_SIZE then
      (.error (.error "Cannot send data, max length reach."), c, [], [])
    else
      let packet : DataFrame := { id := c.id.getD 0, flag := flag, data := some data }
      match Channel.writeOut c (.dataF packet) with
      | .queued c1 => (.ok false, c1, [], [])
      | .written frames flushed => (.ok flushed, c, frames, [])
      | .noConnection =>
        let d := Channel.destroy c (some "Channel is not writable")
        (.ok false, d.1, d.2.1, d.2.2)

/-- One iteration of the write-queue drain loop in `Channel.prototype._open`
(index.js:582-593): `packet.id = newid`, then `flushed = this._writeOut(packet)`
(with the no-connection path running `destroy` and yielding `false`). -/
def Channel.drainStep (newid : Nat) (acc : ChannelState × List Frame × Bool)
    (p : Frame) : ChannelState × List Frame × Bool :=
  let p2 := Frame.setId newid p
  match Channel.writeOut acc.1 p2 with
  | .queued c2 => (c2, acc.2.1, false)
  | .written frames flushed => (acc.1, acc.2.1 ++ frames, flushed)
  | .noConnection =>
    let d := Channel.destroy acc.1 (some "Channel is not writable")
    (d.1, acc.2.1, false)

/-- Translation of `Channel.prototype._open` (index.js:568-613).  The write
queue captured on entry is drained with each packet's id rewritten to
`newid`.  On a closing channel the source then evaluates `self._endsig`,
but no `self` variable is declared in `_open` or any enclosing scope, so a
`ReferenceError` is raised (carried here with the state reached and the
frames written before the throw); the deferred END signal is never sent
and no `connect` event is emitted.  Otherwise `connect` (and `drain` when
the last queued write flushed) is emitted. -/
def Channel.openResolved (c0 : ChannelState) (newid : Nat) :
    Except (JsError × ChannelState × List Frame)
      (ChannelState × List Frame × List ChanEvent) :=
  let queue := c0.writeQueue
  let c1 := { c0 with
              id := some newid
              connecting := false
              writeQueue := none
              request := none }
  let drained := (queue.getD []).foldl (Channel.drainStep newid) (c1, ([] : List Frame), false)
  let c3 := drained.1
  let frames := drained.2.1
  let flushed := drained.2.2
  if c3.closing then .error ⟨.referenceError "self", c3, frames⟩
  else .ok (c3, frames, ChanEvent.connect :: (if flushed then [ChanEvent.drain] else []))

/-- Translation of `OpenRequest.prototype.cancel` (index.js:1125-1151),
acting on the per-id queue `q` (head = `requests[id]`, successors in
`next` order) and the position `i` of `this` in it.  A sent request cannot
be cancelled.  For the head, `requests[id]` is repointed to the successor
(or the entry deleted).  For any other position the source's unlink branch
`else if (this.prev) { this.prev = this.next; }` never fires (`prev` is
never assigned a non-null value), so the node stays linked and only
`this.destroy()` marks it destroyed. -/
def OpenRequest.cancelAt (q : List OpenRequest) (i : Nat) : Bool × List OpenRequest :=
  match q.get? i with
  | none => (false, q)
  | some r =>
    if r.sent then (false, q)
    else if i = 0 then (true, q.drop 1)
    else (true, q.set i { r with destroyed := true })

/-- Outcome delivered for the head request by `processResponse`:
`connDestroyed` models `conn.destroy(new Error(msg))`, `responded n`
models `this.onresponse(n)` followed by `this.destroy()`, `denied`
models `this.destroy(new Error(content or ERR_OPEN_DENIED))`. -/
inductive OpenRespOutcome where
  | connDestroyed (msg : String)
  | responded (newid : Nat)
  | denied (reason : Option (List Nat))
deriving DecidableEq, Repr

/-- Translation of `OpenRequest.prototype.processResponse`
(index.js:1180-1225) for the head of a per-id queue.  Returns the outcome
for the head, the queue reachable from `requests[id]` afterwards (`[]`
when the entry was deleted), and whether `send` was invoked on a promoted
successor.  With a successor and flag ALLOW the source destroys the whole
successor chain with "Channel is already open" but leaves `requests[id]`
pointing at the (now destroyed) head; with any other flag the successor is
promoted and sent.  A REDIRECT payload must be exactly 4 bytes and is
decoded as `(b1 << 16 | b2 << 8 | b3) + (b0 << 24 >>> 0)`. -/
def OpenRequest.processResponse (head : OpenRequest) (rest : List OpenRequest)
    (flag : Nat) (payload : List Nat) :
    OpenRespOutcome × List OpenRequest × Bool :=
  let qsend : List OpenRequest × Bool :=
    match rest with
    | [] => ([], false)
    | r :: rs =>
      if flag = OpenRequest.FLAG_ALLOW then
        ({ head with destroyed := true } ::
          (r :: rs).map (fun x => { x with destroyed := true }), false)
      else (r :: rs, true)
  if flag = OpenRequest.FLAG_ALLOW then
    (.responded head.id, qsend.1, qsend.2)
  else if flag = OpenRequest.FLAG_REDIRECT then
    if payload.length ≠ 4 then (.connDestroyed "Bad open resp", qsend.1, qsend.2)
    else
      (.responded (((payload.getD 1 0) <<< 16 ||| (payload.getD 2 0) <<< 8 |||
        payload.getD 3 0) + ((payload.getD 0 0) <<< 24)), qsend.1, qsend.2)
  else
    (.denied (if payload.length ≠ 0 then some payload else none), qsend.1, qsend.2)

/-- Result of `Connection.prototype.processOpen`. -/
inductive ProcessOpenResult where
  | uncaughtReferenceError (name : String)
  | delegated (result : OpenRespOutcome × List OpenRequest × Bool)
deriving DecidableEq, Repr

/-- Translation of `Connection.prototype.processOpen` (index.js:907-916).
When `requests[id]` is absent the source executes
`sock.destroy(new Error("Server sent an open response to unknown"))`, but
no `sock` variable is declared in `processOpen` or any enclosing scope, so
the statement raises `ReferenceError: sock is not defined`; the connection
is not destroyed and no error is fanned out.  When an entry exists, the
frame is delegated to the head request's `processResponse`. -/
def Connection.processOpen (requests : Nat → Option (OpenRequest × List OpenRequest))
    (id flag : Nat) (payload : List Nat) : ProcessOpenResult :=
  match requests id with
  | none => .uncaughtReferenceError "sock"
  | some (head, rest) => .delegated (OpenRequest.processResponse head rest flag payload)

theorem parseLoopF_stable (fuel : Nat) : ∀ (fuel2 : Nat) (buffer : List Nat) (offset : Nat),
    buffer.length - offset < fuel → buffer.length - offset < fuel2 →
    parseLoopF fuel buffer offset = parseLoopF fuel2 buffer offset := by
  induction fuel with
  | zero => intro fuel2 buffer offset h1 _; omega
  | succ fuel ih =>
    intro fuel2 buffer offset h1 h2
    match fuel2, h2 with
    | fuel2 + 1, h2 =>
      show parseLoopF (fuel + 1) buffer offset = parseLoopF (fuel2 + 1) buffer offset
      simp only [parseLoopF]
      split_ifs with hg hp hov
      · rfl
      · rfl
      · rfl
      · exact congrArg _ (ih fuel2 buffer _ (by omega) (by omega))

/-- Value whose low `n` bits are clear or-ed with a value below `2 ^ n`
adds without carries. -/
theorem lor_eq_add_of_lt {x b n : Nat} (hx : x % 2 ^ n = 0) (hb : b < 2 ^ n) :
    x ||| b = x + b := by
  obtain ⟨a, ha⟩ := Nat.dvd_of_mod_eq_zero hx
  subst ha
  apply Nat.eq_of_testBit_eq
  intro j
  rw [Nat.testBit_lor, Nat.testBit_mul_pow_two_add a hb j]
  by_cases hj : j < n
  · have hlt : ¬ (j ≥ n) := by omega
    have hxj : (2 ^ n * a).testBit j = false := by
      rw [Nat.mul_comm, ← Nat.shiftLeft_eq]
      simp [Nat.testBit_shiftLeft, hlt]
    simp [hxj, hj]
  · have hge : n ≤ j := Nat.not_lt.mp hj
    have hbj : b.testBit j = false :=
      Nat.testBit_eq_false_of_lt (lt_of_lt_of_le hb (Nat.pow_le_pow_right (by norm_num) hge))
    have hxj : (2 ^ n * a).testBit j = a.testBit (j - n) := by
      rw [Nat.mul_comm, ← Nat.shiftLeft_eq]
      simp [Nat.testBit_shiftLeft, hge]
    simp [hxj, hj, hbj]

/-- Decoding of a two-byte big-endian length prefix. -/
theorem lor_two_bytes (a b : Nat) (hb : b < 256) : a <<< 8 ||| b = a * 256 + b := by
  have hx : a <<< 8 % 2 ^ 8 = 0 := by
    rw [Nat.shiftLeft_eq]; exact Nat.mul_mod_left a (2 ^ 8)
  have hb8 : b < 2 ^ 8 := by norm_num; omega
  rw [lor_eq_add_of_lt hx hb8, Nat.shiftLeft_eq]

/-- Decoding of the four channel-id bytes as done by the parser:
`(b3 << 16 | b4 << 8 | b5) + (b2 << 24 >>> 0)`. -/
theorem ch_decode (b2 b3 b4 b5 : Nat) (h4 : b4 < 256) (h5 : b5 < 256) :
    (b3 <<< 16 ||| b4 <<< 8 ||| b5) + b2 <<< 24 =
      b2 * 16777216 + b3 * 65536 + b4 * 256 + b5 := by
  have e1 : b3 <<< 16 ||| b4 <<< 8 = b3 * 65536 + b4 * 256 := by
    have hx : b3 <<< 16 % 2 ^ 16 = 0 := by
      rw [Nat.shiftLeft_eq]; exact Nat.mul_mod_left b3 (2 ^ 16)
    have hb : b4 <<< 8 < 2 ^ 16 := by rw [Nat.shiftLeft_eq]; norm_num; omega
    rw [lor_eq_add_of_lt hx hb, Nat.shiftLeft_eq, Nat.shiftLeft_eq]
  have e2 : (b3 * 65536 + b4 * 256) ||| b5 = b3 * 65536 + b4 * 256 + b5 := by
    have hx : (b3 * 65536 + b4 * 256) % 2 ^ 8 = 0 := by norm_num; omega
    have hb : b5 < 2 ^ 8 := by norm_num; omega
    exact lor_eq_add_of_lt hx hb
  rw [e1, e2, Nat.shiftLeft_eq]
  norm_num
  ring

/-- Decoding of the descriptor byte `d = (op << 3) | flag` by the parser
bit-twiddles `op = ((d >> 1) & 0xF) >> 2` and `flag = ((d << 1) & 0xF) >> 1`
recovers `op` and `flag` for all in-range values. -/
theorem desc_decode (op flag : Nat) (hop : op < 4) (hflag : flag < 8) :
    ((((op <<< 3 ||| flag) % 256) >>> 1) &&& 0xf) >>> 2 = op ∧
    ((((op <<< 3 ||| flag) % 256) <<< 1) &&& 0xf) >>> 1 = flag := by
  interval_cases op <;> interval_cases flag <;> exact ⟨by decide, by decide⟩

/-- Parser loop stops immediately when fewer than two bytes remain. -/
theorem parseLoop_stop (buffer : List Nat) (offset : Nat)
    (h : buffer.length < offset + 2) :
    parseLoop buffer offset = .ok [] (buffer.drop offset) := by
  simp only [parseLoop, parseLoopF]
  rw [if_pos (by omega)]

/-- One iteration of the parser loop, as a case split on the decoded length
prefix `N`. -/
theorem parseLoop_step (buffer : List Nat) (offset N : Nat)
    (hN : N = (buffer.getD offset 0) <<< 8 ||| buffer.getD (offset + 1) 0)
    (h2 : offset + 2 ≤ buffer.length) :
    (N < 7 → parseLoop buffer offset = .destroyed [] "bad packet size") ∧
    (7 ≤ N → buffer.length < offset + N →
      parseLoop buffer offset = .ok [] (buffer.drop offset)) ∧
    (7 ≤ N → offset + N ≤ buffer.length →
      parseLoop buffer offset =
        .prepend (dispatchAt buffer offset N) (parseLoop buffer (offset + N))) := by
  have key : parseLoop buffer offset =
      (if offset + 2 > buffer.length then ParseOutcome.ok [] (buffer.drop offset)
       else if N < 7 then ParseOutcome.destroyed [] "bad packet size"
       else if offset + N > buffer.length then ParseOutcome.ok [] (buffer.drop offset)
       else ParseOutcome.prepend (dispatchAt buffer offset N)
         (parseLoopF buffer.length buffer (offset + N))) := by
    simp only [parseLoop, parseLoopF]
    rw [← hN]
  refine ⟨?_, ?_, ?_⟩
  · intro hlt
    rw [key, if_neg (by omega), if_pos hlt]
  · intro hge hover
    rw [key, if_neg (by omega), if_neg (by omega), if_pos (by omega)]
  · intro hge hfit
    rw [key, if_neg (by omega), if_neg (by omega), if_neg (by omega)]
    rw [parseLoopF_stable buffer.length (buffer.length + 1) buffer (offset + N)
      (by omega) (by omega)]
    rfl

/-- Parsing a single well-formed header-plus-payload buffer dispatches
exactly once, with the original channel id, op, flag and payload, and
leaves no residual bytes. -/
theorem header_parse (op id flag : Nat) (payload : List Nat)
    (hop : 0 < op) (hop4 : op < 4) (hid : id < 2 ^ 32) (hflag : flag < 8)
    (hlen : payload.length ≤ MAX_PAYLOAD_SIZE) :
    parseLoop ([((7 + payload.length) >>> 8) % 256, (7 + payload.length) % 256,
      (id >>> 24) % 256, (id >>> 16) % 256, (id >>> 8) % 256, id % 256,
      ((op <<< 3) ||| flag) % 256] ++ payload) 0 =
      .ok [⟨op, id, flag, payload⟩] [] := by
  have hmax : MAX_PAYLOAD_SIZE = 10240 := rfl
  have hL : 7 + payload.length < 65536 := by omega
  have h256 : ∀ x : Nat, x % 256 < 256 := fun x => Nat.mod_lt x (by norm_num)
  set L := payload.length with hLdef
  set buffer : List Nat :=
    [((7 + L) >>> 8) % 256, (7 + L) % 256,
     (id >>> 24) % 256, (id >>> 16) % 256, (id >>> 8) % 256, id % 256,
     ((op <<< 3) ||| flag) % 256] ++ payload with hbuf
  have hblen : buffer.length = 7 + L := by simp [hbuf]; omega
  have hb0 : buffer.getD 0 0 = ((7 + L) >>> 8) % 256 := rfl
  have hb1 : buffer.getD (0 + 1) 0 = (7 + L) % 256 := rfl
  have hshr : (7 + L) >>> 8 = (7 + L) / 256 := by
    rw [Nat.shiftRight_eq_div_pow]
  have hNval : (buffer.getD 0 0) <<< 8 ||| buffer.getD (0 + 1) 0 = 7 + L := by
    rw [hb0, hb1, lor_two_bytes _ _ (h256 _), hshr]
    omega
  have hstep := parseLoop_step buffer 0 (7 + L) hNval.symm (by omega)
  have hrest : parseLoop buffer (0 + (7 + L)) = .ok [] [] := by
    have := parseLoop_stop buffer (0 + (7 + L)) (by omega)
    rwa [show buffer.drop (0 + (7 + L)) = [] from by
      apply List.drop_eq_nil_of_le; omega] at this
  have hdispatch : dispatchAt buffer 0 (7 + L) = [⟨op, id, flag, payload⟩] := by
    have g2 : buffer.getD (0 + 2) 0 = (id >>> 24) % 256 := rfl
    have g3 : buffer.getD (0 + 3) 0 = (id >>> 16) % 256 := rfl
    have g4 : buffer.getD (0 + 4) 0 = (id >>> 8) % 256 := rfl
    have g5 : buffer.getD (0 + 5) 0 = id % 256 := rfl
    have g6 : buffer.getD (0 + 6) 0 = ((op <<< 3) ||| flag) % 256 := rfl
    have hch : ((buffer.getD (0 + 3) 0) <<< 16 ||| (buffer.getD (0 + 4) 0) <<< 8 |||
        buffer.getD (0 + 5) 0) + ((buffer.getD (0 + 2) 0) <<< 24) = id := by
      rw [g2, g3, g4, g5, ch_decode _ _ _ _ (h256 _) (h256 _)]
      rw [Nat.shiftRight_eq_div_pow, Nat.shiftRight_eq_div_pow, Nat.shiftRight_eq_div_pow]
      norm_num
      omega
    have hdesc := desc_decode op flag hop4 hflag
    have hslice : (buffer.drop (0 + 7)).take ((7 + L) - 7) = payload := by
      have hdrop : buffer.drop (0 + 7) = payload := rfl
      rw [hdrop]
      simp [hLdef]
    simp only [dispatchAt, hch, g6]
    rw [if_neg (by rw [hdesc.1]; omega)]
    rw [hdesc.1, hdesc.2, hslice]
  rw [hstep.2.2 (by omega) (by omega), hdispatch, hrest]
  rfl

/-- C1: for every frame (DataFrame, SignalFrame, or OpenRequest) with a u32
channel id, op in 1..3 (determined by the frame type), flag in 0..7, and a
payload of at most MAX_PAYLOAD_SIZE bytes, feeding the bytes produced by
its `toBuffer` into the connection's incremental parser (fresh, with no
residual) yields exactly one dispatch whose decoded channel id, op, flag
and payload equal the original fields, with no residual bytes kept. -/
theorem frame_toBuffer_parse_roundtrip (id flag : Nat) (payload : List Nat)
    (hid : id < 2 ^ 32) (hflag : flag < 8)
    (hlen : payload.length ≤ MAX_PAYLOAD_SIZE) (hbytes : ∀ b ∈ payload, b < 256) :
    sockOndata [] (DataFrame.toBuffer ⟨id, flag, some payload⟩) =
      .ok [⟨2, id, flag, payload⟩] [] ∧
    sockOndata [] (SignalFrame.toBuffer ⟨id, flag, some payload⟩) =
      .ok [⟨3, id, flag, payload⟩] [] ∧
    sockOndata [] (OpenRequest.toBuffer ⟨id, flag, some payload, false, false, false⟩) =
      .ok [⟨1, id, flag, payload⟩] [] := by
  refine ⟨?_, ?_, ?_⟩
  · exact header_parse 2 id flag payload (by norm_num) (by norm_num) hid hflag hlen
  · exact header_parse 3 id flag payload (by norm_num) (by norm_num) hid hflag hlen
  · exact header_parse 1 id flag payload (by norm_num) (by norm_num) hid hflag hlen

/-- Witness for C1 at a concrete frame: id `0x00112233`, flag 5, payload
`[72, 105]`. -/
theorem frame_toBuffer_parse_roundtrip_witness :
    sockOndata [] (DataFrame.toBuffer ⟨0x00112233, 5, some [72, 105]⟩) =
      .ok [⟨2, 0x00112233, 5, [72, 105]⟩] [] ∧
    sockOndata [] (SignalFrame.toBuffer ⟨0x00112233, 5, some [72, 105]⟩) =
      .ok [⟨3, 0x00112233, 5, [72, 105]⟩] [] ∧
    sockOndata [] (OpenRequest.toBuffer ⟨0x00112233, 5, some [72, 105], false, false, false⟩) =
      .ok [⟨1, 0x00112233, 5, [72, 105]⟩] [] :=
  frame_toBuffer_parse_roundtrip 0x00112233 5 [72, 105] (by norm_num) (by norm_num)
    (by norm_num [MAX_PAYLOAD_SIZE]) (by decide)

theorem stripLit_sound (p : List Char) :
    ∀ (s r : List Char), stripLit p s = some r → s = p ++ r := by
  induction p with
  | nil => intro s r h; simp only [stripLit, Option.some.injEq] at h; simp [h]
  | cons hd tl ih =>
    intro s r h
    cases s with
    | nil => exact absurd h (by simp [stripLit])
    | cons c cs =>
      unfold stripLit at h
      split_ifs at h with hc
      subst hc
      rw [List.cons_append, ih cs r h]

theorem matchEmitEnd_sound (s : List Char) (e : Bool) (h : matchEmitEnd s = some e) :
    ∃ d ∈ [[], ['e'], ['e', 'm', 'i', 't']], s = d ∧ e = !d.isEmpty := by
  unfold matchEmitEnd at h
  split_ifs at h with h1 h2 h3
  · injection h with h
    exact ⟨['e'], by simp, h1, by simp [← h]⟩
  · injection h with h
    exact ⟨['e', 'm', 'i', 't'], by simp, h2, by simp [← h]⟩
  · injection h with h
    exact ⟨[], by simp, h3, by simp [← h]⟩

theorem matchPlusEmit_sound (s : List Char) (e : Bool) (h : matchPlusEmit s = some e) :
    ∃ c ∈ [([] : List Char), ['+']], ∃ d ∈ [[], ['e'], ['e', 'm', 'i', 't']],
      s = c ++ d ∧ e = !d.isEmpty := by
  unfold matchPlusEmit at h
  split at h
  next rest =>
    rcases he : matchEmitEnd rest with _ | ev
    · rw [he] at h
      simp only [Option.orElse] at h
      rw [show matchEmitEnd ('+' :: rest) = none from by simp [matchEmitEnd]] at h
      cases h
    · rw [he] at h
      simp only [Option.orElse] at h
      injection h with h2
      obtain ⟨d, hd, hrest, hee⟩ := matchEmitEnd_sound rest ev he
      exact ⟨['+'], by simp, d, hd, by rw [hrest]; rfl, by rw [← h2]; exact hee⟩
  next =>
    obtain ⟨d, hd, hs, hee⟩ := matchEmitEnd_sound s e h
    exact ⟨[], by simp, d, hd, by simpa using hs, hee⟩

theorem matchWriteTail_sound (s : List Char) (w e : Bool)
    (h : matchWriteTail s = some (w, e)) :
    ∃ b ∈ [[], ['w'], ['w', 'r', 'i', 't', 'e']], ∃ c ∈ [([] : List Char), ['+']],
    ∃ d ∈ [[], ['e'], ['e', 'm', 'i', 't']],
      s = b ++ (c ++ d) ∧ w = !b.isEmpty ∧ e = !d.isEmpty := by
  have leaf : ∀ (b r1 : List Char), b ∈ [[], ['w'], ['w', 'r', 'i', 't', 'e']] →
      s = b ++ r1 → ∀ ev, matchPlusEmit r1 = some ev → w = !b.isEmpty → e = ev →
      ∃ b ∈ [[], ['w'], ['w', 'r', 'i', 't', 'e']], ∃ c ∈ [([] : List Char), ['+']],
      ∃ d ∈ [[], ['e'], ['e', 'm', 'i', 't']],
        s = b ++ (c ++ d) ∧ w = !b.isEmpty ∧ e = !d.isEmpty := by
    intro b r1 hb hs ev hev hw he
    obtain ⟨c, hc, d, hd, hr, hee⟩ := matchPlusEmit_sound r1 ev hev
    exact ⟨b, hb, c, hc, d, hd, by rw [hs, hr], hw, by rw [he, hee]⟩
  unfold matchWriteTail at h
  rcases h1 : stripLit ['w'] s with _ | r1 <;> rw [h1] at h <;>
    simp only [Option.none_bind, Option.some_bind, Option.orElse] at h
  · rcases h2 : stripLit ['w', 'r', 'i', 't', 'e'] s with _ | r2 <;> rw [h2] at h <;>
      simp only [Option.none_bind, Option.some_bind, Option.orElse] at h
    · rcases h3 : matchPlusEmit s with _ | ev <;> rw [h3] at h <;>
        simp only [Option.map, Option.some.injEq, Prod.mk.injEq] at h
      · exact Option.noConfusion h
      · exact leaf [] s (by simp) rfl ev h3 (by simp [← h.1]) h.2.symm
    · rcases h3 : matchPlusEmit r2 with _ | ev <;> rw [h3] at h <;>
        simp only [Option.map, Option.orElse, Option.some.injEq, Prod.mk.injEq] at h
      · rcases h4 : matchPlusEmit s with _ | ev2 <;> rw [h4] at h <;>
          simp only [Option.map, Option.some.injEq, Prod.mk.injEq] at h
        · exact Option.noConfusion h
        · exact leaf [] s (by simp) rfl ev2 h4 (by simp [← h.1]) h.2.symm
      · exact leaf ['w', 'r', 'i', 't', 'e'] r2 (by simp) (stripLit_sound _ s r2 h2) ev h3
          (by simp [← h.1]) h.2.symm
  · rcases h3 : matchPlusEmit r1 with _ | ev <;> rw [h3] at h <;>
      simp only [Option.map, Option.orElse, Option.some.injEq, Prod.mk.injEq] at h
    · rcases h2 : stripLit ['w', 'r', 'i', 't', 'e'] s with _ | r2 <;> rw [h2] at h <;>
        simp only [Option.none_bind, Option.some_bind, Option.orElse] at h
      · rcases h4 : matchPlusEmit s with _ | ev2 <;> rw [h4] at h <;>
          simp only [Option.map, Option.some.injEq, Prod.mk.injEq] at h
        · exact Option.noConfusion h
        · exact leaf [] s (by simp) rfl ev2 h4 (by simp [← h.1]) h.2.symm
      · rcases h4 : matchPlusEmit r2 with _ | ev2 <;> rw [h4] at h <;>
          simp only [Option.map, Option.orElse, Option.some.injEq, Prod.mk.injEq] at h
        · rcases h5 : matchPlusEmit s with _ | ev3 <;> rw [h5] at h <;>
            simp only [Option.map, Option.some.injEq, Prod.mk.injEq] at h
          · exact Option.noConfusion h
          · exact leaf [] s (by simp) rfl ev3 h5 (by simp [← h.1]) h.2.symm
        · exact leaf ['w', 'r', 'i', 't', 'e'] r2 (by simp) (stripLit_sound _ s r2 h2) ev2 h4
            (by simp [← h.1]) h.2.symm
    · exact leaf ['w'] r1 (by simp) (stripLit_sound _ s r1 h1) ev h3
        (by simp [← h.1]) h.2.symm

theorem matchModeRe_sound (s : List Char) (r w e : Bool)
    (h : matchModeRe s = some (r, w, e)) : modeGrammar s r w e := by
  have leaf : ∀ (a r1 : List Char), a ∈ [[], ['r'], ['r', 'e', 'a', 'd']] →
      s = a ++ r1 → ∀ wv ev, matchWriteTail r1 = some (wv, ev) → r = !a.isEmpty →
      w = wv → e = ev → modeGrammar s r w e := by
    intro a r1 ha hs wv ev hwt hr hw he
    obtain ⟨b, hb, c, hc, d, hd, hr1, hww, hee⟩ := matchWriteTail_sound r1 wv ev hwt
    exact ⟨a, ha, b, hb, c, hc, d, hd, by rw [hs, hr1]; simp [List.append_assoc], hr,
      by rw [hw, hww], by rw [he, hee]⟩
  unfold matchModeRe at h
  rcases h1 : stripLit ['r'] s with _ | r1 <;> rw [h1] at h <;>
    simp only [Option.none_bind, Option.some_bind, Option.orElse] at h
  · rcases h2 : stripLit ['r', 'e', 'a', 'd'] s with _ | r2 <;> rw [h2] at h <;>
      simp only [Option.none_bind, Option.some_bind, Option.orElse] at h
    · rcases h3 : matchWriteTail s with _ | ⟨wv, ev⟩ <;> rw [h3] at h <;>
        simp only [Option.map, Option.some.injEq, Prod.mk.injEq] at h
      · exact Option.noConfusion h
      · exact leaf [] s (by simp) rfl wv ev h3 (by simp [← h.1])
          h.2.1.symm h.2.2.symm
    · rcases h3 : matchWriteTail r2 with _ | ⟨wv, ev⟩ <;> rw [h3] at h <;>
        simp only [Option.map, Option.orElse, Option.some.injEq, Prod.mk.injEq] at h
      · rcases h4 : matchWriteTail s with _ | ⟨wv2, ev2⟩ <;> rw [h4] at h <;>
          simp only [Option.map, Option.some.injEq, Prod.mk.injEq] at h
        · exact Option.noConfusion h
        · exact leaf [] s (by simp) rfl wv2 ev2 h4 (by simp [← h.1])
            h.2.1.symm h.2.2.symm
      · exact leaf ['r', 'e', 'a', 'd'] r2 (by simp) (stripLit_sound _ s r2 h2) wv ev h3
          (by simp [← h.1]) h.2.1.symm h.2.2.symm
  · rcases h3 : matchWriteTail r1 with _ | ⟨wv, ev⟩ <;> rw [h3] at h <;>
      simp only [Option.map, Option.orElse, Option.some.injEq, Prod.mk.injEq] at h
    · rcases h2 : stripLit ['r', 'e', 'a', 'd'] s with _ | r2 <;> rw [h2] at h <;>
        simp only [Option.none_bind, Option.some_bind, Option.orElse] at h
      · rcases h4 : matchWriteTail s with _ | ⟨wv2, ev2⟩ <;> rw [h4] at h <;>
          simp only [Option.map, Option.some.injEq, Prod.mk.injEq] at h
        · exact Option.noConfusion h
        · exact leaf [] s (by simp) rfl wv2 ev2 h4 (by simp [← h.1])
            h.2.1.symm h.2.2.symm
      · rcases h4 : matchWriteTail r2 with _ | ⟨wv2, ev2⟩ <;> rw [h4] at h <;>
          simp only [Option.map, Option.orElse, Option.some.injEq, Prod.mk.injEq] at h
        · rcases h5 : matchWriteTail s with _ | ⟨wv3, ev3⟩ <;> rw [h5] at h <;>
            simp only [Option.map, Option.some.injEq, Prod.mk.injEq] at h
          · exact Option.noConfusion h
          · exact leaf [] s (by simp) rfl wv3 ev3 h5 (by simp [← h.1])
              h.2.1.symm h.2.2.symm
        · exact leaf ['r', 'e', 'a', 'd'] r2 (by simp) (stripLit_sound _ s r2 h2) wv2 ev2 h4
            (by simp [← h.1]) h.2.1.symm h.2.2.symm
    · exact leaf ['r'] r1 (by simp) (stripLit_sound _ s r1 h1) wv ev h3
        (by simp [← h.1]) h.2.1.symm h.2.2.symm

theorem matchModeRe_complete :
    ∀ a ∈ [[], ['r'], ['r', 'e', 'a', 'd']], ∀ b ∈ [[], ['w'], ['w', 'r', 'i', 't', 'e']],
    ∀ c ∈ [([] : List Char), ['+']], ∀ d ∈ [[], ['e'], ['e', 'm', 'i', 't']],
      matchModeRe (a ++ b ++ c ++ d) = some (!a.isEmpty, !b.isEmpty, !d.isEmpty) := by
  decide

theorem matchModeRe_iff (s : List Char) (r w e : Bool) :
    matchModeRe s = some (r, w, e) ↔ modeGrammar s r w e := by
  constructor
  · exact matchModeRe_sound s r w e
  · rintro ⟨a, ha, b, hb, c, hc, d, hd, hs, hr, hw, he⟩
    rw [hs, hr, hw, he]
    exact matchModeRe_complete a ha b hb c hc d hd

/-- C2: the claim says `Channel.connect` derives the open token by
percent-decoding the parsed URL's query component and then succeeds for
otherwise-valid URLs.  The code instead evaluates `uri.query` where `uri`
is a declared but never-assigned local (index.js:266), so `connect` throws
a TypeError for every URL whose query component is non-empty; with the
query removed the very same URL connects fine.  This theorem evaluates the
embedded `connect` at such a failing input. -/
theorem connect_query_reads_undefined_uri :
    Channel.connect false
      { protocol := "http:", host := "localhost:7010", pathname := some "/x112233",
        query := some "token", href := "http://localhost:7010/x112233?token" }
      (some "rw") = .error (.typeError "Cannot read property query of undefined") ∧
    Channel.connect false
      { protocol := "http:", host := "localhost:7010", pathname := some "/x112233",
        query := none, href := "http://localhost:7010/x112233" }
      (some "rw") =
      .ok { id := 0x112233, mode := 3, readable := true, writable := true,
            emitable := false, token := none } := by
  exact ⟨rfl, rfl⟩

/-- C3: the claim says an inbound OPEN frame whose channel id has no
pending entry destroys the connection (fanning the error to every channel
and request).  The code instead executes `sock.destroy(...)` where no
`sock` variable is in scope (index.js:911), raising a ReferenceError; when
an entry exists the frame is delegated to the head request's
`processResponse` as claimed. -/
theorem processOpen_unknown_reference_error :
    Connection.processOpen (fun _ => none) 5 0 [] = .uncaughtReferenceError "sock" ∧
    ∀ (requests : Nat → Option (OpenRequest × List OpenRequest)) (id flag : Nat)
      (payload : List Nat) (head : OpenRequest) (rest : List OpenRequest),
      requests id = some (head, rest) →
      Connection.processOpen requests id flag payload =
        .delegated (OpenRequest.processResponse head rest flag payload) := by
  refine ⟨rfl, ?_⟩
  intro requests id flag payload head rest h
  simp [Connection.processOpen, h]

/-- Witness for C3's delegation clause at a concrete requests map. -/
theorem processOpen_unknown_reference_error_witness :
    Connection.processOpen
      (fun i => if i = 5 then some (⟨5, 3, none, true, true, false⟩, []) else none)
      5 0 [] =
      .delegated (OpenRequest.processResponse ⟨5, 3, none, true, true, false⟩ [] 0 []) :=
  processOpen_unknown_reference_error.2
    (fun i => if i = 5 then some (⟨5, 3, none, true, true, false⟩, []) else none)
    5 0 [] ⟨5, 3, none, true, true, false⟩ [] (by simp)

/-- C5: one step of the incremental parser at any offset with a complete
2-byte length prefix `N`: when `N < 7` the connection is destroyed with
"bad packet size" and parsing stops; when `N ≥ 7` but fewer than `N` bytes
are available the loop stops and the tail from `offset` is retained;
otherwise the frame at `offset` is dispatched and the offset advances by
exactly `N`. -/
theorem parser_incremental_step (buffer : List Nat) (offset N : Nat)
    (hN : N = (buffer.getD offset 0) <<< 8 ||| buffer.getD (offset + 1) 0)
    (h2 : offset + 2 ≤ buffer.length) :
    (N < 7 → parseLoop buffer offset = .destroyed [] "bad packet size") ∧
    (7 ≤ N → buffer.length < offset + N →
      parseLoop buffer offset = .ok [] (buffer.drop offset)) ∧
    (7 ≤ N → offset + N ≤ buffer.length →
      parseLoop buffer offset =
        .prepend (dispatchAt buffer offset N) (parseLoop buffer (offset + N))) :=
  parseLoop_step buffer offset N hN h2

/-- Witness for C5 at the spec's protocol-violation scenario: an inbound
frame with length prefix 5 destroys the connection. -/
theorem parser_incremental_step_witness :
    parseLoop [0, 5, 9, 9] 0 = .destroyed [] "bad packet size" :=
  (parser_incremental_step [0, 5, 9, 9] 0 5 (by decide) (by decide)).1 (by decide)

/-- C6: for every writable channel and every encoded payload longer than
MAX_PAYLOAD_SIZE (10240) bytes, `Channel.write` throws the validation
error synchronously: nothing is written to the connection or queued, no
event fires, and the channel state is returned unchanged. -/
theorem write_oversize_throws_state_unchanged (c : ChannelState) (data : List Nat)
    (priority : Option Nat) (hw : c.writable = true)
    (hp : ∀ p, priority = some p → p ≤ 4)
    (hlen : data.length > MAX_PAYLOAD_SIZE) :
    Channel.write c data priority =
      (.error (.error "Cannot send data, max length reach."), c, [], []) := by
  have hflag : (match priority with
      | some p => if p = 0 then 1 else p
      | none => 1) - 1 ≤ 3 := by
    cases priority with
    | none => simp
    | some p =>
      have := hp p rfl
      by_cases h0 : p = 0 <;> simp [h0] <;> omega
  simp only [Channel.write]
  rw [if_neg (by simp [hw]), if_neg (by omega), if_pos hlen]

/-- Witness for C6 at a writable channel and a 10241-byte payload. -/
theorem write_oversize_throws_state_unchanged_witness :
    Channel.write
      { id := some 7, readable := true, writable := true, emitable := false,
        connecting := false, closing := false, destroyed := false, endsig := none,
        request := none, writeQueue := none, hasConnection := true }
      (List.replicate 10241 0) none =
      (.error (.error "Cannot send data, max length reach."),
       { id := some 7, readable := true, writable := true, emitable := false,
         connecting := false, closing := false, destroyed := false, endsig := none,
         request := none, writeQueue := none, hasConnection := true }, [], []) :=
  write_oversize_throws_state_unchanged _ _ none rfl (fun p h => by cases h)
    (by simp only [List.length_replicate, MAX_PAYLOAD_SIZE, gt_iff_lt]; omega)

/-- C7: the claim says `cancel` returns false and changes nothing once
sent, and otherwise removes the request from the per-id FIFO queue at
every position.  The code preserves this only for the head: for a middle
or tail position the unlink branch is dead (`prev` is never assigned), so
the cancelled request is destroyed but remains linked in the queue.  The
third conjunct evaluates the failing input: cancelling the middle of a
three-request queue leaves it three long, with the destroyed node still
reachable from `requests[id]`. -/
theorem cancel_sent_and_queue_behavior :
    (∀ (q : List OpenRequest) (i : Nat) (r : OpenRequest),
      q.get? i = some r → r.sent = true → OpenRequest.cancelAt q i = (false, q)) ∧
    (∀ (q : List OpenRequest) (r : OpenRequest),
      q.get? 0 = some r → r.sent = false → OpenRequest.cancelAt q 0 = (true, q.drop 1)) ∧
    (OpenRequest.cancelAt
        [⟨9, 1, none, true, true, false⟩, ⟨9, 1, none, false, false, false⟩,
         ⟨9, 2, none, false, false, false⟩] 1 =
      (true,
       [⟨9, 1, none, true, true, false⟩, ⟨9, 1, none, false, false, true⟩,
        ⟨9, 2, none, false, false, false⟩])) := by
  refine ⟨?_, ?_, by decide⟩
  · intro q i r hq hs
    have hq2 : q[i]? = some r := by rw [← List.get?_eq_getElem?]; exact hq
    simp [OpenRequest.cancelAt, hq2, hs]
  · intro q r hq hs
    have hq2 : q[0]? = some r := by rw [← List.get?_eq_getElem?]; exact hq
    simp [OpenRequest.cancelAt, hq2, hs]

/-- Witness for C7's universally quantified clauses at concrete queues. -/
theorem cancel_sent_and_queue_behavior_witness :
    OpenRequest.cancelAt [⟨9, 1, none, true, true, false⟩] 0 =
      (false, [⟨9, 1, none, true, true, false⟩]) ∧
    OpenRequest.cancelAt [⟨9, 1, none, false, false, false⟩] 0 = (true, []) :=
  ⟨cancel_sent_and_queue_behavior.1 [⟨9, 1, none, true, true, false⟩] 0
      ⟨9, 1, none, true, true, false⟩ rfl rfl,
   cancel_sent_and_queue_behavior.2.1 [⟨9, 1, none, false, false, false⟩]
      ⟨9, 1, none, false, false, false⟩ rfl rfl⟩

theorem drainStep_foldl (n : Nat) (c : ChannelState) (hq : c.writeQueue = none)
    (hc : c.connecting = false) (hconn : c.hasConnection = true) :
    ∀ (q fr : List Frame) (fl : Bool),
      q.foldl (Channel.drainStep n) (c, fr, fl) =
        (c, fr ++ q.map (Frame.setId n), if q.isEmpty then fl else true) := by
  intro q
  induction q with
  | nil => intro fr fl; simp
  | cons p ps ih =>
    intro fr fl
    have hw : Channel.writeOut c (Frame.setId n p) = .written [Frame.setId n p] true := by
      simp [Channel.writeOut, hq, hc, hconn]
    simp only [List.foldl_cons, Channel.drainStep, hw, List.map_cons, List.isEmpty_cons]
    rw [ih (fr ++ [Frame.setId n p]) true]
    simp

theorem openResolved_ok (c : ChannelState) (n : Nat)
    (hclos : c.closing = false) (hconn : c.hasConnection = true) :
    Channel.openResolved c n =
      .ok ({ c with id := some n, connecting := false, writeQueue := none, request := none },
        (c.writeQueue.getD []).map (Frame.setId n),
        ChanEvent.connect ::
          (if (c.writeQueue.getD []).isEmpty then ([] : List ChanEvent)
           else [ChanEvent.drain])) := by
  have h1 := drainStep_foldl n
    { c with id := some n, connecting := false, writeQueue := none, request := none }
    rfl rfl (by simp [hconn]) (c.writeQueue.getD []) [] false
  simp only [Channel.openResolved, h1]
  simp [hclos]

/-- C9: `getBinMode` maps the empty string to 0; it maps every string
whose lower-cased characters match the mode grammar
`(r|read)?(w|write)?\\+?(e|emit)?` to the bitset with READ set iff an
r/read group matched, WRITE iff w/write matched, EMIT iff e/emit matched;
and for every non-matching string it returns a non-number (`none`), which
makes `Channel.connect` throw "Invalid mode". -/
theorem getBinMode_grammar :
    getBinMode (some "") = some 0 ∧
    (∀ (s : String) (r w e : Bool),
      modeGrammar (s.data.map Char.toLower) r w e →
      getBinMode (some s) =
        some (((if r then READ else 0) ||| (if w then WRITE else 0)) |||
          (if e then EMIT else 0))) ∧
    (∀ s : String, (∀ r w e, ¬ modeGrammar (s.data.map Char.toLower) r w e) →
      getBinMode (some s) = none ∧
      Channel.connect false
        { protocol := "http:", host := "localhost:7010", pathname := none,
          query := none, href := "http://localhost:7010" } (some s) =
        .error (.error "Invalid mode")) := by
  have hun : ∀ s : String, getBinMode (some s) =
      (if s = "" then some 0
       else match matchModeRe (s.data.map Char.toLower) with
         | none => none
         | some (r, w, e) =>
           some (((if r then READ else 0) ||| (if w then WRITE else 0)) |||
             (if e then EMIT else 0))) := fun _ => rfl
  refine ⟨rfl, ?_, ?_⟩
  · intro s r w e hg
    by_cases hempty : s = ""
    · subst hempty
      obtain ⟨a, ha, b, hb, c, hc, d, hd, hs, hr, hw, he⟩ := hg
      have h0 : a ++ b ++ c ++ d = ([] : List Char) := by rw [← hs]; rfl
      simp only [List.append_eq_nil] at h0
      obtain ⟨⟨⟨ha0, hb0⟩, hc0⟩, hd0⟩ := h0
      subst ha0; subst hb0; subst hd0
      simp only [List.isEmpty_nil, Bool.not_true] at hr hw he
      subst hr; subst hw; subst he
      rfl
    · rw [hun s, if_neg hempty, (matchModeRe_iff _ r w e).mpr hg]
  · intro s hnone
    have hne : s ≠ "" := by
      intro hempty
      subst hempty
      exact hnone false false false
        ⟨[], by simp, [], by simp, [], by simp, [], by simp, rfl, rfl, rfl, rfl⟩
    have hmm : matchModeRe (s.data.map Char.toLower) = none := by
      rcases hmre : matchModeRe (s.data.map Char.toLower) with _ | rwe
      · rfl
      · obtain ⟨r, w, e⟩ := rwe
        exact absurd (matchModeRe_sound _ r w e hmre) (hnone r w e)
    have hgb : getBinMode (some s) = none := by
      rw [hun s, if_neg hne, hmm]
    refine ⟨hgb, ?_⟩
    have hconn : Channel.connect false
        { protocol := "http:", host := "localhost:7010", pathname := none,
          query := none, href := "http://localhost:7010" } (some s) =
        (match getBinMode (some s) with
         | none => .error (.error "Invalid mode")
         | some m => .ok { id := 1, mode := m, readable := (m &&& READ) = READ,
                           writable := (m &&& WRITE) = WRITE,
                           emitable := (m &&& EMIT) = EMIT, token := none }) := rfl
    rw [hconn, hgb]

/-- Witness for C9: "Rw" (case-insensitively) yields READ with WRITE, and
the non-matching "zz" yields `none` and an "Invalid mode" throw. -/
theorem getBinMode_grammar_witness :
    getBinMode (some "Rw") =
      some (((if true then READ else 0) ||| (if true then WRITE else 0)) |||
        (if false then EMIT else 0)) ∧
    getBinMode (some "zz") = none ∧
    Channel.connect false
      { protocol := "http:", host := "localhost:7010", pathname := none,
        query := none, href := "http://localhost:7010" } (some "zz") =
      .error (.error "Invalid mode") := by
  have hzz : ∀ r w e : Bool, ¬ modeGrammar (("zz").data.map Char.toLower) r w e := by
    intro r w e h
    have h2 := (matchModeRe_iff _ r w e).mpr h
    have h3 : matchModeRe (("zz").data.map Char.toLower) = none := by decide
    rw [h3] at h2
    exact Option.noConfusion h2
  refine ⟨getBinMode_grammar.2.1 "Rw" true true false
    ⟨['r'], by simp, ['w'], by simp, [], by simp, [], by simp, by decide, rfl, rfl, rfl⟩,
    (getBinMode_grammar.2.2 "zz" hzz).1, (getBinMode_grammar.2.2 "zz" hzz).2⟩

/-- C10: `Channel.end` performs no size validation on the message: on an
open channel (with a JavaScript-truthy, i.e. nonzero, id — `destroy` is a
no-op on id 0), a message of any byte length yields an END SignalFrame
carrying the whole message, written out unchecked, and
`SignalFrame.toBuffer` stores the 16-bit length prefix as
`(7 + payload length)` reduced modulo 2^16 byte-by-byte, so for every
message longer than 65528 bytes the emitted length field differs from the
frame's actual byte length. -/
theorem end_no_size_validation (c : ChannelState) (i : Nat) (msg : List Nat)
    (hid : c.id = some i) (hi0 : i ≠ 0) (hdest : c.destroyed = false)
    (hclos : c.closing = false) (hreq : c.request = none) (hconn : c.connecting = false)
    (hq : c.writeQueue = none) (hasc : c.hasConnection = true) :
    (Channel.endChan c (some msg)).2.1 =
      [Frame.signalF { id := i, flag := SignalFrame.FLAG_END, data := some msg }] ∧
    (let B := SignalFrame.toBuffer { id := i, flag := SignalFrame.FLAG_END, data := some msg }
     B.length = 7 + msg.length ∧
     B.getD 0 0 * 256 + B.getD 1 0 = (7 + msg.length) % 65536 ∧
     (msg.length > 65528 → B.getD 0 0 * 256 + B.getD 1 0 ≠ B.length)) := by
  have e0 : (SignalFrame.toBuffer { id := i, flag := SignalFrame.FLAG_END, data := some msg }).getD 0 0
      = ((7 + msg.length) >>> 8) % 256 := rfl
  have e1 : (SignalFrame.toBuffer { id := i, flag := SignalFrame.FLAG_END, data := some msg }).getD 1 0
      = (7 + msg.length) % 256 := rfl
  have hlen : (SignalFrame.toBuffer { id := i, flag := SignalFrame.FLAG_END, data := some msg }).length
      = 7 + msg.length := by
    simp [SignalFrame.toBuffer]
    omega
  have h28 : (2 : Nat) ^ 8 = 256 := by norm_num
  have hfield : (SignalFrame.toBuffer { id := i, flag := SignalFrame.FLAG_END, data := some msg }).getD 0 0 * 256 +
      (SignalFrame.toBuffer { id := i, flag := SignalFrame.FLAG_END, data := some msg }).getD 1 0
      = (7 + msg.length) % 65536 := by
    rw [e0, e1, Nat.shiftRight_eq_div_pow, h28]
    omega
  refine ⟨?_, hlen, hfield, ?_⟩
  · simp [Channel.endChan, Channel.destroy, Channel.writeOut, finalizeDestroyChannel,
      hid, hi0, hdest, hclos, hreq, hconn, hq, hasc]
  · intro hbig
    rw [hfield, hlen]
    omega

/-- Witness for C10 at a 65529-byte message on a concrete open channel. -/
theorem end_no_size_validation_witness :
    (Channel.endChan
        { id := some 3
          readable := true
          writable := true
          emitable := false
          connecting := false
          closing := false
          destroyed := false
          endsig := none
          request := none
          writeQueue := none
          hasConnection := true }
        (some (List.replicate 65529 7))).2.1 =
      [Frame.signalF
        { id := 3, flag := SignalFrame.FLAG_END, data := some (List.replicate 65529 7) }] ∧
    (let B := SignalFrame.toBuffer
        { id := 3, flag := SignalFrame.FLAG_END, data := some (List.replicate 65529 7) }
     B.length = 7 + (List.replicate 65529 7).length ∧
     B.getD 0 0 * 256 + B.getD 1 0 = (7 + (List.replicate 65529 7).length) % 65536 ∧
     ((List.replicate 65529 7).length > 65528 →
       B.getD 0 0 * 256 + B.getD 1 0 ≠ B.length)) :=
  end_no_size_validation _ 3 _ rfl (by decide) rfl rfl rfl rfl rfl rfl

/-- C8: for every OPEN response with flag REDIRECT, a payload that is not
exactly 4 bytes destroys the connection with "Bad open resp"; a 4-byte
payload is decoded as a big-endian u32 and delivered to the head request's
onresponse; `Channel._open` then installs it as the channel's id, and a
subsequently framed write carries exactly its big-endian bytes at offsets
2-5. -/
theorem redirect_processing (head : OpenRequest) (rest : List OpenRequest)
    (payload : List Nat) (c : ChannelState) (n : Nat)
    (hclos : c.closing = false) (hconn : c.hasConnection = true) :
    (payload.length ≠ 4 →
      (OpenRequest.processResponse head rest OpenRequest.FLAG_REDIRECT payload).1 =
        .connDestroyed "Bad open resp") ∧
    (payload.length = 4 → (∀ b ∈ payload, b < 256) →
      (OpenRequest.processResponse head rest OpenRequest.FLAG_REDIRECT payload).1 =
        .responded (payload.getD 0 0 * 16777216 + payload.getD 1 0 * 65536 +
          payload.getD 2 0 * 256 + payload.getD 3 0)) ∧
    (∃ fr ev, Channel.openResolved c n =
      .ok ({ c with
             id := some n
             connecting := false
             writeQueue := none
             request := none }, fr, ev)) ∧
    (∀ (d : List Nat) (f : Nat),
      ((DataFrame.toBuffer { id := n, flag := f, data := some d }).drop 2).take 4 =
        [n >>> 24 % 256, n >>> 16 % 256, n >>> 8 % 256, n % 256] ∧
      (n < 2 ^ 32 →
        n >>> 24 % 256 * 16777216 + n >>> 16 % 256 * 65536 + n >>> 8 % 256 * 256 + n % 256
          = n)) := by
  refine ⟨?_, ?_, ?_, ?_⟩
  · intro hne
    simp [OpenRequest.processResponse, OpenRequest.FLAG_ALLOW, OpenRequest.FLAG_REDIRECT, hne]
  · intro hlen hb
    match payload, hlen with
    | [b0, b1, b2, b3], _ =>
      have h2 : b2 < 256 := hb b2 (by simp)
      have h3 : b3 < 256 := hb b3 (by simp)
      have hdec := ch_decode b0 b1 b2 b3 h2 h3
      simp [OpenRequest.processResponse, OpenRequest.FLAG_ALLOW, OpenRequest.FLAG_REDIRECT]
      exact hdec
  · exact ⟨_, _, openResolved_ok c n hclos hconn⟩
  · intro d f
    constructor
    · rfl
    · intro h32
      have e24 : n >>> 24 = n / 16777216 := by
        rw [Nat.shiftRight_eq_div_pow]
      have e16 : n >>> 16 = n / 65536 := by
        rw [Nat.shiftRight_eq_div_pow]
      have e8 : n >>> 8 = n / 256 := by
        rw [Nat.shiftRight_eq_div_pow]
      have h32n : n < 4294967296 := by
        have : (2 : Nat) ^ 32 = 4294967296 := by norm_num
        omega
      rw [e24, e16, e8]
      omega

/-- Witness for C8: payload `00 00 00 05` redirects the head request to
channel id 5, and a 3-byte payload destroys the connection. -/
theorem redirect_processing_witness :
    (OpenRequest.processResponse ⟨1, 3, none, true, true, false⟩ []
        OpenRequest.FLAG_REDIRECT [0, 0, 0, 5]).1 = .responded 5 ∧
    (OpenRequest.processResponse ⟨1, 3, none, true, true, false⟩ []
        OpenRequest.FLAG_REDIRECT [0, 0, 5]).1 = .connDestroyed "Bad open resp" := by
  have h1 := redirect_processing ⟨1, 3, none, true, true, false⟩ [] [0, 0, 0, 5]
    { id := some 1
      readable := true
      writable := true
      emitable := false
      connecting := true
      closing := false
      destroyed := false
      endsig := none
      request := none
      writeQueue := none
      hasConnection := true } 5 rfl rfl
  have h2 := redirect_processing ⟨1, 3, none, true, true, false⟩ [] [0, 0, 5]
    { id := some 1
      readable := true
      writable := true
      emitable := false
      connecting := true
      closing := false
      destroyed := false
      endsig := none
      request := none
      writeQueue := none
      hasConnection := true } 5 rfl rfl
  refine ⟨?_, h2.1 (by decide)⟩
  have := h1.2.1 rfl (by decide)
  simpa using this

/-- C4 (code evaluation): when `destroy` (or `end`) runs on an opening
channel with a JavaScript-truthy (nonzero) id whose OpenRequest has
already been sent, `cancel` returns false, so the END signal is stored in
`_endsig` and deferred (nothing is written and the channel is not
finalized).  The claim then says that when the OPEN
response resolves via `_open` with the channel closing, the stored END
frame is rewritten with the resolved id and written out with no `connect`
event; the code instead evaluates `self._endsig` where no `self` variable
is declared, so `_open` raises a ReferenceError: the deferred END frame is
never written (and indeed no `connect` event is emitted). -/
theorem destroy_while_opening_defers_end (c : ChannelState) (i : Nat)
    (hid : c.id = some i) (hi0 : i ≠ 0) (hdest : c.destroyed = false)
    (hclos : c.closing = false) (hconn : c.hasConnection = true)
    (hreq : c.request = some true) (hsig : c.endsig = none) (hq : c.writeQueue = none) :
    Channel.destroy c none =
      ({ c with
         readable := false
         writable := false
         emitable := false
         closing := true
         endsig := some { id := i, flag := SignalFrame.FLAG_END, data := none } },
       [], []) ∧
    Channel.openResolved (Channel.destroy c none).1 7 =
      .error ⟨.referenceError "self",
        { c with
          readable := false
          writable := false
          emitable := false
          closing := true
          endsig := some { id := i, flag := SignalFrame.FLAG_END, data := none }
          id := some 7
          connecting := false
          writeQueue := none
          request := none }, []⟩ := by
  have hdc : Channel.destroy c none =
      ({ c with
         readable := false
         writable := false
         emitable := false
         closing := true
         endsig := some { id := i, flag := SignalFrame.FLAG_END, data := none } },
       [], []) := by
    simp [Channel.destroy, finalizeDestroyChannel, hid, hi0, hdest, hclos, hconn, hreq, hsig]
  refine ⟨hdc, ?_⟩
  rw [hdc]
  simp [Channel.openResolved, hq]

/-- Witness for C4 at a concrete opening channel with a sent request. -/
theorem destroy_while_opening_defers_end_witness :
    Channel.destroy
      { id := some 11
        readable := true
        writable := true
        emitable := false
        connecting := true
        closing := false
        destroyed := false
        endsig := none
        request := some true
        writeQueue := none
        hasConnection := true } none =
      ({ id := some 11
         readable := false
         writable := false
         emitable := false
         connecting := true
         closing := true
         destroyed := false
         endsig := some { id := 11, flag := SignalFrame.FLAG_END, data := none }
         request := some true
         writeQueue := none
         hasConnection := true }, [], []) ∧
    Channel.openResolved
      (Channel.destroy
        { id := some 11
          readable := true
          writable := true
          emitable := false
          connecting := true
          closing := false
          destroyed := false
          endsig := none
          request := some true
          writeQueue := none
          hasConnection := true } none).1 7 =
      .error ⟨.referenceError "self",
        { id := some 7
          readable := false
          writable := false
          emitable := false
          connecting := false
          closing := true
          destroyed := false
          endsig := some { id := 11, flag := SignalFrame.FLAG_END, data := none }
          request := none
          writeQueue := none
          hasConnection := true }, []⟩ :=
  destroy_while_opening_defers_end _ 11 rfl (by decide) rfl rfl rfl rfl rfl rfl
